import Mathlib

/-!
Verification of the playback/access-gating logic of the streaming-app
repository.  The definitions below are shallow embeddings of the
TypeScript functions in the player components (`ShakaPlayer` and
`VideoPlayer`): the stream-kind resolver `normalizeType`, the access
gate `isLocked`, the source normalization pass (the `sources` memo),
the watch-progress persistence (`saveProgress`), the saved-progress
load/resume pair, the episode-level access override, and a small trace
model of the protected-URL fetch / server-switch interaction.
-/

/-- Stream kinds of a video source, mirroring the TypeScript union
`"mp4" | "hls" | "dash" | "embed" | "iframe"`.  The resolver itself
only ever produces `mp4`, `hls`, `dash` or `iframe` (the `embed` tag
is canonicalized to `iframe`). -/
inductive SourceKind where
  | mp4
  | hls
  | dash
  | embed
  | iframe
deriving DecidableEq, Repr

/-- Test whether the first list is a prefix of the second, by
structural recursion so that concrete instances evaluate in the
kernel. -/
def listStartsWith [BEq α] : List α → List α → Bool
  | [], _ => true
  | _ :: _, [] => false
  | a :: as, b :: bs => a == b && listStartsWith as bs

/-- Test whether the first list occurs as a contiguous run inside the
second list. -/
def listContainsSeq [BEq α] (pat : List α) : List α → Bool
  | [] => pat.isEmpty
  | c :: rest => listStartsWith pat (c :: rest) || listContainsSeq pat rest

/-- Boolean substring test, the embedding of JavaScript
`String.prototype.includes`. -/
def containsSubstr (s pat : String) : Bool :=
  listContainsSeq pat.data s.data

/-- Lower-casing of a string, the embedding of JavaScript
`String.prototype.toLowerCase` (ASCII letters, which is all the
comparisons in the player use). -/
def jsToLower (s : String) : String :=
  ⟨s.data.map Char.toLower⟩

/-- Trimming of surrounding whitespace, the embedding of JavaScript
`String.prototype.trim`. -/
def jsTrim (s : String) : String :=
  ⟨((s.data.dropWhile Char.isWhitespace).reverse.dropWhile Char.isWhitespace).reverse⟩

/-- Suffix test on strings, the embedding of JavaScript
`String.prototype.endsWith`. -/
def jsEndsWith (s suf : String) : Bool :=
  listStartsWith suf.data.reverse s.data.reverse

/-- Embedding of the `normalizeType` helper of `ShakaPlayer`: resolve a
stream kind from an optional raw type tag and an optional URL.  The
tag (lower-cased and trimmed) wins when it is one of the recognized
values; otherwise the URL suffix decides, then embed-host substrings,
and finally the default is HLS. -/
def normalizeType (rawType : Option String) (url : Option String) : SourceKind :=
  let t := jsTrim (jsToLower (rawType.getD ""))
  if t = "iframe" ∨ t = "embed" then SourceKind.iframe
  else if t = "mp4" then SourceKind.mp4
  else if t = "hls" ∨ t = "m3u8" then SourceKind.hls
  else if t = "dash" then SourceKind.dash
  else
    let u := jsToLower (url.getD "")
    if jsEndsWith u ".m3u8" then SourceKind.hls
    else if jsEndsWith u ".mpd" then SourceKind.dash
    else if jsEndsWith u ".mp4" then SourceKind.mp4
    else if containsSubstr u "youtube.com" || containsSubstr u "youtu.be" ||
            containsSubstr u "player." || containsSubstr u "embed" then SourceKind.iframe
    else SourceKind.hls

/-- Access tiers of content, mirroring `'free' | 'rent' | 'vip'`. -/
inductive AccessType where
  | free
  | rent
  | vip
deriving DecidableEq, Repr

/-- Embedding of the `isLocked` memo of `ShakaPlayer`: decide whether
playback is locked from the access tier, the exclude-from-plan flag,
the viewer's subscription/rental entitlements and the two
entitlement-loading flags. -/
def isLocked (accessType : AccessType) (excludeFromPlan : Bool)
    (hasActiveSubscription hasActiveRental : Bool)
    (subscriptionLoading rentalLoading : Bool) : Bool :=
  if subscriptionLoading || rentalLoading || accessType == AccessType.free then
    false
  else if accessType == AccessType.rent && excludeFromPlan then
    !hasActiveRental
  else if accessType == AccessType.rent && !excludeFromPlan then
    !hasActiveSubscription && !hasActiveRental
  else if accessType == AccessType.vip then
    !hasActiveSubscription
  else
    false

example : normalizeType (some "M3U8") (some "http://a/b.mp4") = SourceKind.hls := by decide

example : normalizeType none (some "https://x/video.MPD") = SourceKind.dash := by decide

example : normalizeType (some "weird") (some "https://site/player.php") = SourceKind.iframe := by decide

example : isLocked AccessType.rent true true false false false = true := by decide

example : isLocked AccessType.vip false false true false false = true := by decide

/-- Raw source descriptor as the `sources` memo of `ShakaPlayer`
receives it: every field may be absent, quality maps are association
lists from quality label to URL, and the legacy `mp4Urls` field may
stand in for `quality_urls`. -/
structure RawSource where
  id : Option String
  server_name : Option String
  source_type : Option String
  url : Option String
  quality_urls : Option (List (String × String))
  mp4Urls : Option (List (String × String))
  quality : Option String
  is_default : Option Bool
  version : Option String
  permission : Option String
deriving DecidableEq, Repr

/-- Normalized source produced by the `sources` memo: id and label are
always populated (with fallbacks), the resolved kind is always
present, and URLs are optional because they are stripped for non-free
content. -/
structure NormalizedSource where
  id : String
  server_name : String
  source_type : String
  type : SourceKind
  url : Option String
  quality_urls : Option (List (String × String))
  quality : Option String
  is_default : Option Bool
  version : Option String
  permission : Option String
deriving DecidableEq, Repr

/-- String form of a stream kind, used where the TypeScript code mixes
the resolved kind back into the string-typed `source_type` field. -/
def SourceKind.toTag : SourceKind → String
  | SourceKind.mp4 => "mp4"
  | SourceKind.hls => "hls"
  | SourceKind.dash => "dash"
  | SourceKind.embed => "embed"
  | SourceKind.iframe => "iframe"

/-- JavaScript `a || b` on an optional string, where the empty string
is falsy. -/
def jsStrOr (a : Option String) (b : String) : String :=
  match a with
  | some s => if s = "" then b else s
  | none => b

/-- Embedding of the quality-map cleanup inside the `sources` memo:
prefer `quality_urls`, fall back to the legacy `mp4Urls` field, and
treat an empty map or a map carrying the serialized-undefined sentinel
(`_type = "undefined"`) as absent. -/
def normalizeQualityUrls (quality_urls mp4Urls : Option (List (String × String))) :
    Option (List (String × String)) :=
  match quality_urls.or mp4Urls with
  | none => none
  | some m => if m.isEmpty || m.lookup "_type" == some "undefined" then none else some m

/-- Embedding of the per-source body of the `sources` memo of
`ShakaPlayer`: resolve the stream kind, clean the quality map, fill id
and server label from positional fallbacks, and expose `url` and
`quality_urls` only when the content is free. -/
def normalizeSource (isFreeContent : Bool) (index : Nat) (source : RawSource) :
    NormalizedSource :=
  let sourceType := normalizeType source.source_type source.url
  let qualityUrls := normalizeQualityUrls source.quality_urls source.mp4Urls
  { id := jsStrOr source.id ("server-" ++ toString index)
    server_name := jsStrOr source.server_name ("Server " ++ toString (index + 1))
    source_type := jsStrOr source.source_type sourceType.toTag
    type := sourceType
    url := if isFreeContent then source.url else none
    quality_urls := if isFreeContent then qualityUrls else none
    quality := source.quality
    is_default := source.is_default
    version := source.version
    permission := source.permission }

/-- Index-carrying map over the raw source list, mirroring the
`rawSources.map((source, index) => ...)` call. -/
def sourcesAux (isFreeContent : Bool) : Nat → List RawSource → List NormalizedSource
  | _, [] => []
  | i, s :: rest => normalizeSource isFreeContent i s :: sourcesAux isFreeContent (i + 1) rest

/-- Embedding of the `sources` memo of `ShakaPlayer` applied to the
raw source list: content is free exactly when the access tier is
`free`, and each raw source is normalized with its position. -/
def sources (accessType : AccessType) (rawSources : List RawSource) : List NormalizedSource :=
  sourcesAux (accessType == AccessType.free) 0 rawSources

theorem sourcesAux_length (isFreeContent : Bool) (i : Nat) (l : List RawSource) :
    (sourcesAux isFreeContent i l).length = l.length := by
  induction l generalizing i with
  | nil => rfl
  | cons s rest ih => simp [sourcesAux, ih]

theorem sourcesAux_get (isFreeContent : Bool) (i : Nat) (l : List RawSource)
    (j : Nat) (hj : j < l.length) :
    (sourcesAux isFreeContent i l).get
        ⟨j, by rw [sourcesAux_length]; exact hj⟩ =
      normalizeSource isFreeContent (i + j) (l.get ⟨j, hj⟩) := by
  induction l generalizing i j with
  | nil => exact absurd hj (Nat.not_lt_zero j)
  | cons s rest ih =>
    cases j with
    | zero => simp [sourcesAux]
    | succ k =>
      have hk : k < rest.length := Nat.lt_of_succ_lt_succ hj
      have := ih (i + 1) k hk
      simp only [sourcesAux, List.get, this]
      congr 1
      omega

/-- Observable state of the video element that `saveProgress` reads:
the current playback position and the duration, where `none` models a
NaN duration (metadata not yet loaded). -/
structure VideoState where
  currentTime : ℚ
  duration : Option ℚ
deriving DecidableEq, Repr

/-- Persistence action taken by one run of `saveProgress`: skip, update
the existing watch-history row, or insert a fresh row.  The
last-watched timestamp the code also writes is wall-clock data and is
not modeled. -/
inductive SaveAction where
  | skip
  | update (rowId : String) (progress duration : ℚ) (completed : Bool)
  | insert (user_id : String) (episode_id movie_id : Option String)
      (progress duration : ℚ) (completed : Bool)
deriving DecidableEq, Repr

/-- Embedding of the `saveProgress` closure in the progress-tracking
effect of `ShakaPlayer`: bail out when the video element is gone or
its duration is falsy (0) or NaN, compute the completed flag from the
remaining time, then upsert keyed on the existing row. -/
def saveProgress (userId : String) (episodeId movieId : Option String)
    (video : Option VideoState) (existingRowId : Option String) : SaveAction :=
  match video with
  | none => SaveAction.skip
  | some v =>
    match v.duration with
    | none => SaveAction.skip
    | some d =>
      if d = 0 then SaveAction.skip
      else
        let progress := v.currentTime
        let completed := decide (d - progress < 30)
        match existingRowId with
        | some rowId => SaveAction.update rowId progress d completed
        | none => SaveAction.insert userId episodeId movieId progress d completed

/-- Completed flag carried by a persistence action, when the action
writes a row at all. -/
def SaveAction.completedFlag : SaveAction → Option Bool
  | SaveAction.skip => none
  | SaveAction.update _ _ _ c => some c
  | SaveAction.insert _ _ _ _ _ c => some c

/-- Watch-history row as the saved-progress loader reads it. -/
structure WatchHistoryRow where
  progress : ℚ
  duration : Option ℚ
  completed : Bool
deriving DecidableEq, Repr

/-- Embedding of the saved-progress branch of the `getUser` effect of
`ShakaPlayer`: the stored record seeds `savedProgress` only when it
exists, is not completed, and its progress exceeds 10 seconds. -/
def loadSavedProgress (data : Option WatchHistoryRow) : Option ℚ :=
  match data with
  | none => none
  | some d => if !d.completed && decide (d.progress > 10) then some d.progress else none

/-- Embedding of the resume-from-saved-progress effect of
`ShakaPlayer`: seek to the saved position exactly when a saved
position is present and the video element is ready (readyState at
least 2); otherwise no seek happens and playback starts at the
beginning. -/
def resumeSeek (savedProgress : Option ℚ) (readyState : Nat) : Option ℚ :=
  match savedProgress with
  | some p => if readyState ≥ 2 then some p else none
  | none => none

/-- Episode row as `VideoPlayer` sees it, restricted to the fields the
access-override computation reads. -/
structure Episode where
  id : String
  access : Option AccessType
deriving DecidableEq, Repr

/-- Embedding of `episodes?.find(ep => ep.id === currentEpisodeId)` in
`VideoPlayer`. -/
def currentEpisode (episodes : Option (List Episode)) (currentEpisodeId : Option String) :
    Option Episode :=
  episodes.bind (fun eps => eps.find? (fun ep => some ep.id == currentEpisodeId))

/-- Embedding of `currentEpisode?.access || accessType` in
`VideoPlayer`: episode-level access wins when present, otherwise the
content-level access is used. -/
def effectiveAccessType (episodes : Option (List Episode)) (currentEpisodeId : Option String)
    (accessType : Option AccessType) : Option AccessType :=
  ((currentEpisode episodes currentEpisodeId).bind Episode.access).or accessType

/-- State of the source-selection / protected-URL machinery of
`ShakaPlayer` that the stale-response analysis needs: the selected
source, the validated source the player will attach, the validation
flag, and the multiset of protected-URL fetches still in flight. -/
structure PlayerState where
  currentSource : Option String
  protectedSource : Option String
  accessValidated : Bool
  pending : List String
deriving DecidableEq, Repr

/-- Initial player state: nothing selected, nothing validated, nothing
in flight. -/
def initState : PlayerState :=
  { currentSource := none, protectedSource := none, accessValidated := false, pending := [] }

/-- Events of the selection/fetch interaction for non-free content: a
server switch (which launches a protected-URL fetch for the newly
selected source) and the asynchronous resolution of one in-flight
fetch. -/
inductive PlayerEvent where
  | switch (id : String)
  | resolve (id : String) (success : Bool)
deriving DecidableEq, Repr

/-- Embedding of `handleServerChange` for non-free content: select the
source, clear the validated source and the validation flag, and start
a protected-URL fetch for the new source. -/
def handleServerChange (s : PlayerState) (id : String) : PlayerState :=
  { currentSource := some id
    protectedSource := none
    accessValidated := false
    pending := id :: s.pending }

/-- Embedding of the continuation of `fetchProtectedSource` after
`getProtectedUrl` resolves: the handler installs the returned source
as the validated source on success (and clears validation on failure)
without comparing the response's source id against the currently
selected source.  A resolution with no matching in-flight fetch is a
no-op. -/
def fetchResolve (s : PlayerState) (id : String) (success : Bool) : PlayerState :=
  if s.pending.contains id then
    let s1 := { s with pending := s.pending.erase id }
    if success then
      { s1 with protectedSource := some id, accessValidated := true }
    else
      { s1 with accessValidated := false }
  else s

/-- One step of the selection/fetch interaction. -/
def playerStep (s : PlayerState) : PlayerEvent → PlayerState
  | PlayerEvent.switch id => handleServerChange s id
  | PlayerEvent.resolve id success => fetchResolve s id success

/-- Run of the selection/fetch interaction over a list of events. -/
def playerRun (s : PlayerState) (events : List PlayerEvent) : PlayerState :=
  events.foldl playerStep s

example :
    (playerRun initState [PlayerEvent.switch "A", PlayerEvent.resolve "A" true]).protectedSource
      = some "A" := by decide

/-- C2: when the access tier is rent and the exclude-from-plan flag is
set, once entitlement loading has finished the access gate reports the
content locked exactly when no active rental exists; the subscription
state does not enter the decision at all, so an active subscription
alone never unlocks it. -/
theorem isLocked_rent_exclusive (hasActiveSubscription hasActiveRental : Bool) :
    isLocked AccessType.rent true hasActiveSubscription hasActiveRental false false
      = !hasActiveRental := by
  cases hasActiveSubscription <;> cases hasActiveRental <;> rfl

/-- C3: when the access tier is rent and the exclude-from-plan flag is
clear, once entitlement loading has finished the access gate reports
the content locked exactly when neither an active subscription nor an
active rental exists, i.e. unlocked as soon as either entitlement is
active. -/
theorem isLocked_rent_shared (hasActiveSubscription hasActiveRental : Bool) :
    isLocked AccessType.rent false hasActiveSubscription hasActiveRental false false
      = !(hasActiveSubscription || hasActiveRental) := by
  cases hasActiveSubscription <;> cases hasActiveRental <;> rfl

/-- C6: while either the subscription status or the rental status is
still loading, the access gate reports the content not locked for
every access tier, exclude flag and entitlement combination. -/
theorem isLocked_loading_never_locked (a : AccessType) (e s r x : Bool) :
    isLocked a e s r true x = false ∧ isLocked a e s r x true = false :=
  ⟨rfl, by cases x <;> rfl⟩

/-- C5: the stream-kind resolver gives absolute priority to a
recognized type tag (case-insensitive, surrounding whitespace
ignored): `embed`/`iframe` resolve to the embed kind, `mp4` to file,
`hls`/`m3u8` to HLS and `dash` to DASH, regardless of the URL; when
the tag is absent or unrecognized, resolution falls back to the URL
suffix (`.m3u8` to HLS, `.mpd` to DASH, `.mp4` to file), then to known
embed-hosting URL substrings, and finally defaults to HLS. -/
theorem normalizeType_resolution (rawType url : Option String) (t : String)
    (ht : jsTrim (jsToLower (rawType.getD "")) = t) :
    (t = "iframe" ∨ t = "embed" → normalizeType rawType url = SourceKind.iframe) ∧
    (t = "mp4" → normalizeType rawType url = SourceKind.mp4) ∧
    (t = "hls" ∨ t = "m3u8" → normalizeType rawType url = SourceKind.hls) ∧
    (t = "dash" → normalizeType rawType url = SourceKind.dash) ∧
    (t ≠ "iframe" → t ≠ "embed" → t ≠ "mp4" → t ≠ "hls" → t ≠ "m3u8" → t ≠ "dash" →
      normalizeType rawType url =
        (let u := jsToLower (url.getD "")
         if jsEndsWith u ".m3u8" then SourceKind.hls
         else if jsEndsWith u ".mpd" then SourceKind.dash
         else if jsEndsWith u ".mp4" then SourceKind.mp4
         else if containsSubstr u "youtube.com" || containsSubstr u "youtu.be" ||
                 containsSubstr u "player." || containsSubstr u "embed" then SourceKind.iframe
         else SourceKind.hls)) := by
  subst ht
  refine ⟨?_, ?_, ?_, ?_, ?_⟩
  · intro h
    simp only [normalizeType]
    rw [if_pos h]
  · intro h
    simp only [normalizeType]
    rw [h, if_neg (by decide), if_pos rfl]
  · rintro (h | h) <;>
      (simp only [normalizeType]
       rw [h, if_neg (by decide), if_neg (by decide), if_pos (by decide)])
  · intro h
    simp only [normalizeType]
    rw [h, if_neg (by decide), if_neg (by decide), if_neg (by decide), if_pos rfl]
  · intro h1 h2 h3 h4 h5 h6
    simp only [normalizeType]
    rw [if_neg (fun h => h.elim h1 h2), if_neg h3, if_neg (fun h => h.elim h4 h5), if_neg h6]

/-- Witness for C5: an explicit `mp4` tag (upper-case, padded) wins
over a URL whose suffix would resolve to HLS. -/
theorem normalizeType_resolution_witness :
    normalizeType (some " MP4 ") (some "https://cdn.example/master.m3u8") = SourceKind.mp4 :=
  (normalizeType_resolution (some " MP4 ") (some "https://cdn.example/master.m3u8")
      "mp4" (by decide)).2.1 rfl

/-- C1: for every raw source list, the normalization pass keeps the
per-source url and (well-formed) quality-URL map exactly when the
access tier is free, strips both to absent for any non-free tier, and
always keeps the id, the server label, the declared type tag and the
resolved stream kind. -/
theorem sources_access_policy (a : AccessType) (rs : List RawSource) (j : Nat)
    (hj : j < rs.length) (sid sname stag : String) (m : List (String × String))
    (hid : (rs.get ⟨j, hj⟩).id = some sid) (hid2 : sid ≠ "")
    (hname : (rs.get ⟨j, hj⟩).server_name = some sname) (hname2 : sname ≠ "")
    (htag : (rs.get ⟨j, hj⟩).source_type = some stag) (htag2 : stag ≠ "")
    (hq : (rs.get ⟨j, hj⟩).quality_urls = some m) (hm : m.isEmpty = false)
    (hsent : (m.lookup "_type" == some "undefined") = false) :
    ∃ hj2 : j < (sources a rs).length,
      ((sources a rs).get ⟨j, hj2⟩).id = sid ∧
      ((sources a rs).get ⟨j, hj2⟩).server_name = sname ∧
      ((sources a rs).get ⟨j, hj2⟩).source_type = stag ∧
      ((sources a rs).get ⟨j, hj2⟩).type = normalizeType (some stag) (rs.get ⟨j, hj⟩).url ∧
      (a = AccessType.free →
        ((sources a rs).get ⟨j, hj2⟩).url = (rs.get ⟨j, hj⟩).url ∧
        ((sources a rs).get ⟨j, hj2⟩).quality_urls = some m) ∧
      (a ≠ AccessType.free →
        ((sources a rs).get ⟨j, hj2⟩).url = none ∧
        ((sources a rs).get ⟨j, hj2⟩).quality_urls = none) := by
  have hj2 : j < (sources a rs).length := by
    simpa [sources, sourcesAux_length] using hj
  refine ⟨hj2, ?_⟩
  have hget : (sources a rs).get ⟨j, hj2⟩
      = normalizeSource (a == AccessType.free) j (rs.get ⟨j, hj⟩) := by
    simpa [sources] using sourcesAux_get (a == AccessType.free) 0 rs j hj
  rw [hget]
  simp only [List.get_eq_getElem] at hid hname htag hq
  refine ⟨?_, ?_, ?_, ?_, ?_, ?_⟩
  · simp [normalizeSource, jsStrOr, hid, hid2]
  · simp [normalizeSource, jsStrOr, hname, hname2]
  · simp [normalizeSource, jsStrOr, htag, htag2]
  · simp [normalizeSource, htag]
  · intro hfree
    subst hfree
    have hm2 : m ≠ [] := by
      intro hnil
      rw [hnil] at hm
      exact absurd hm (by decide)
    have hsent2 : List.lookup "_type" m ≠ some "undefined" := by simpa using hsent
    simp [normalizeSource, normalizeQualityUrls, hq, Option.or, hm2, hsent2]
  · intro hnotfree
    have hb : (a == AccessType.free) = false := by
      cases a <;> simp_all
    simp [normalizeSource, hb]

/-- A concrete raw source used to witness the normalization policy. -/
def demoRawSource : RawSource :=
  { id := some "s1"
    server_name := some "Main"
    source_type := some "mp4"
    url := some "https://cdn.example/v.mp4"
    quality_urls := some [("720p", "https://cdn.example/v720.mp4")]
    mp4Urls := none
    quality := none
    is_default := some true
    version := none
    permission := none }

/-- Witness for C1: a rent-tier source keeps its metadata but loses
its url and quality map. -/
theorem sources_access_policy_witness :
    ∃ hj2 : 0 < (sources AccessType.rent [demoRawSource]).length,
      ((sources AccessType.rent [demoRawSource]).get ⟨0, hj2⟩).id = "s1" ∧
      ((sources AccessType.rent [demoRawSource]).get ⟨0, hj2⟩).server_name = "Main" ∧
      ((sources AccessType.rent [demoRawSource]).get ⟨0, hj2⟩).source_type = "mp4" ∧
      ((sources AccessType.rent [demoRawSource]).get ⟨0, hj2⟩).type
        = normalizeType (some "mp4") (some "https://cdn.example/v.mp4") ∧
      (AccessType.rent = AccessType.free →
        ((sources AccessType.rent [demoRawSource]).get ⟨0, hj2⟩).url
          = some "https://cdn.example/v.mp4" ∧
        ((sources AccessType.rent [demoRawSource]).get ⟨0, hj2⟩).quality_urls
          = some [("720p", "https://cdn.example/v720.mp4")]) ∧
      (AccessType.rent ≠ AccessType.free →
        ((sources AccessType.rent [demoRawSource]).get ⟨0, hj2⟩).url = none ∧
        ((sources AccessType.rent [demoRawSource]).get ⟨0, hj2⟩).quality_urls = none) :=
  sources_access_policy AccessType.rent [demoRawSource] 0 (by decide) "s1" "Main" "mp4"
    [("720p", "https://cdn.example/v720.mp4")] rfl (by decide) rfl (by decide) rfl (by decide)
    rfl rfl (by decide)

/-- C7: a progress save attempt skips entirely — neither inserting nor
updating a watch-history record — whenever the video element is gone
or its duration is unknown (NaN) or zero. -/
theorem saveProgress_invalid_duration_skips (userId : String)
    (episodeId movieId : Option String) (video : Option VideoState)
    (existingRowId : Option String)
    (h : video = none ∨ ∃ v, video = some v ∧ (v.duration = none ∨ v.duration = some 0)) :
    saveProgress userId episodeId movieId video existingRowId = SaveAction.skip := by
  rcases h with h | ⟨v, hv, hd⟩
  · rw [h]
    rfl
  · subst hv
    rcases hd with hd | hd <;> simp [saveProgress, hd]

/-- Witness for C7: a save attempt with an unknown duration skips. -/
theorem saveProgress_invalid_duration_skips_witness :
    saveProgress "user-1" none (some "movie-1") (some ⟨(25 : ℚ), none⟩) none
      = SaveAction.skip :=
  saveProgress_invalid_duration_skips "user-1" none (some "movie-1")
    (some ⟨(25 : ℚ), none⟩) none (Or.inr ⟨⟨(25 : ℚ), none⟩, rfl, Or.inl rfl⟩)

/-- C8: every persisted progress save with a known nonzero duration
writes a completed flag that is true exactly when the remaining time
(duration minus current position) is below 30 seconds. -/
theorem saveProgress_completed_threshold (userId : String)
    (episodeId movieId : Option String) (existingRowId : Option String)
    (v : VideoState) (d : ℚ) (hd : v.duration = some d) (hd0 : d ≠ 0) :
    ∃ b : Bool,
      (saveProgress userId episodeId movieId (some v) existingRowId).completedFlag = some b ∧
      (b = true ↔ d - v.currentTime < 30) := by
  refine ⟨decide (d - v.currentTime < 30), ?_, by simp⟩
  cases existingRowId <;> simp [saveProgress, hd, hd0, SaveAction.completedFlag]

/-- Witness for C8: a save at 100s of a 120s video (20s remaining) is
marked completed. -/
theorem saveProgress_completed_threshold_witness :
    ∃ b : Bool,
      (saveProgress "user-1" (some "ep-1") none (some ⟨(100 : ℚ), some 120⟩)
          (some "row-1")).completedFlag = some b ∧
      (b = true ↔ (120 : ℚ) - 100 < 30) :=
  saveProgress_completed_threshold "user-1" (some "ep-1") none (some "row-1")
    ⟨(100 : ℚ), some 120⟩ 120 rfl (by norm_num)

/-- C9: the effective access tier handed to the player equals the
episode-level tier whenever the current episode carries one, and falls
back to the content-level tier exactly when no episode-level tier is
present. -/
theorem effectiveAccessType_episode_override (episodes : Option (List Episode))
    (currentEpisodeId : Option String) (accessType : Option AccessType) :
    (∀ ep a, currentEpisode episodes currentEpisodeId = some ep → ep.access = some a →
        effectiveAccessType episodes currentEpisodeId accessType = some a) ∧
    ((currentEpisode episodes currentEpisodeId).bind Episode.access = none →
        effectiveAccessType episodes currentEpisodeId accessType = accessType) := by
  constructor
  · intro ep a hep ha
    simp [effectiveAccessType, hep, ha, Option.or]
  · intro h
    simp [effectiveAccessType, h, Option.or]

/-- A concrete episode list used to witness the access override. -/
def demoEpisodes : List Episode :=
  [{ id := "ep-1", access := some AccessType.vip }]

/-- Witness for C9: an episode-level vip tier overrides a content-level
free tier. -/
theorem effectiveAccessType_episode_override_witness :
    effectiveAccessType (some demoEpisodes) (some "ep-1") (some AccessType.free)
      = some AccessType.vip :=
  (effectiveAccessType_episode_override (some demoEpisodes) (some "ep-1")
      (some AccessType.free)).1 ⟨"ep-1", some AccessType.vip⟩ AccessType.vip (by decide) rfl

/-- C10: with the video element ready, playback resumes at the stored
position exactly when the stored record is not completed and its
progress exceeds 10 seconds; a completed record or one at 10 seconds
or less triggers no seek, so playback starts from the beginning. -/
theorem resume_from_saved_progress (row : WatchHistoryRow) (readyState : Nat)
    (hready : readyState ≥ 2) :
    (row.completed = false → row.progress > 10 →
      resumeSeek (loadSavedProgress (some row)) readyState = some row.progress) ∧
    (row.completed = true ∨ row.progress ≤ 10 →
      resumeSeek (loadSavedProgress (some row)) readyState = none) := by
  constructor
  · intro hc hp
    simp [loadSavedProgress, resumeSeek, hc, hp, hready]
  · rintro (h | h)
    · simp [loadSavedProgress, resumeSeek, h]
    · have hnp : ¬ row.progress > 10 := not_lt.mpr h
      simp [loadSavedProgress, resumeSeek, hnp]

/-- Witness for C10: an uncompleted record at 50s of 100s resumes at
50s. -/
theorem resume_from_saved_progress_witness :
    resumeSeek (loadSavedProgress (some ⟨(50 : ℚ), some 100, false⟩)) 2 = some (50 : ℚ) :=
  (resume_from_saved_progress ⟨(50 : ℚ), some 100, false⟩ 2 (by norm_num)).1 rfl (by norm_num)

/-- C4 fails on the code: in the execution that selects source A, then
selects source B while A's protected-URL fetch is still in flight, and
then sees B's fetch resolve before A's late response, the late
response for the stale source A becomes the active validated playback
source even though the most recently selected source is B — the
response handler installs the fetched source without comparing its id
against the current selection. -/
theorem stale_fetch_overrides_selection :
    (playerRun initState
        [PlayerEvent.switch "A", PlayerEvent.switch "B",
         PlayerEvent.resolve "B" true, PlayerEvent.resolve "A" true]).currentSource
      = some "B" ∧
    (playerRun initState
        [PlayerEvent.switch "A", PlayerEvent.switch "B",
         PlayerEvent.resolve "B" true, PlayerEvent.resolve "A" true]).protectedSource
      = some "A" ∧
    (playerRun initState
        [PlayerEvent.switch "A", PlayerEvent.switch "B",
         PlayerEvent.resolve "B" true, PlayerEvent.resolve "A" true]).accessValidated
      = true := by
  refine ⟨?_, ?_, ?_⟩ <;> decide
